import Mathlib

/-!
Verification development for the li-article-agent repository.

The Python sources are shallowly embedded in Lean: pure text-processing
functions become functions over `List Char` (Python `str`), machine integers
become `Int`/`Nat`, floating-point percentages become `ℚ` (the repository only
ever compares and averages small decimal values, which the rational model
captures exactly), and every LLM-backed call is an explicit function parameter
(an oracle), so theorems quantify over all possible model behaviours.

Embedded modules:
  * `rag_fast.py`      — boilerplate stripping, salient-sentence selection,
                         deduplication, token counting, greedy packing
  * `context_window_manager.py` — fixed-percentage token budgets
  * `li_article_judge.py`       — per-criterion scorer, single-call result
                                  validation, A/B comparison, tier thresholds
  * `li_judge_simple.py`        — binary judge and its tier thresholds
  * `word_count_manager.py`     — word counting
  * `linkedin_article_generator.py` — the iterative improvement loop
-/

namespace LiSpec

/-- Whitespace characters of Python's regex class `\s` (ASCII range), used by
`re.sub(r"\s+", ...)` and `str.strip()` in `rag_fast.py`.  (Python also accepts
some rare Unicode whitespace; the repository only processes ASCII whitespace.) -/
def isPyWs (c : Char) : Bool :=
  c = ' ' || c = '\t' || c = '\n' || c = '\x0b' || c = '\x0c' || c = '\r'

/-- Python `str.strip()`: drop leading and trailing whitespace. -/
def pyStrip (s : List Char) : List Char :=
  (s.dropWhile isPyWs).rdropWhile isPyWs

/-- Line-break characters recognised by Python `str.splitlines()`. -/
def isLineBreak (c : Char) : Bool :=
  c = '\n' || c = '\r' || c = '\x0b' || c = '\x0c' || c = '\x1c' ||
  c = '\x1d' || c = '\x1e' || c = '\x85' || c = '\u2028' || c = '\u2029'

/-- Worker for `splitLines`; `acc` is the current line, reversed, and
`afterCR` records that the previous character was a `\r` whose line was
already emitted, so that an immediately following `\n` belongs to the same
`\r\n` break. -/
def splitLinesAux : Bool → List Char → List Char → List (List Char)
  | _, acc, [] => if acc.isEmpty then [] else [acc.reverse]
  | afterCR, acc, c :: rest =>
      if afterCR && c = '\n' then
        splitLinesAux false acc rest
      else if c = '\r' then
        acc.reverse :: splitLinesAux true [] rest
      else if isLineBreak c then
        acc.reverse :: splitLinesAux false [] rest
      else
        splitLinesAux false (c :: acc) rest

/-- Python `str.splitlines()`: split at line breaks (`\r\n` counts once); a
trailing segment is kept only when non-empty. -/
def splitLines (s : List Char) : List (List Char) :=
  splitLinesAux false [] s

/-- Python `str.lower()` (ASCII; all strings handled by the cleaner are ASCII). -/
def pyLower (s : List Char) : List Char :=
  s.map Char.toLower

/-- Word characters of Python's regex class `\w` (ASCII range): letters, digits
and underscore. -/
def isWordChar (c : Char) : Bool :=
  c.isAlphanum || c = '_'

/-- Python's substring containment test `needle in hay`. -/
def containsSub (hay needle : List Char) : Bool :=
  decide (needle <:+: hay)

/-- The substring denylist of `_strip_boilerplate` in `rag_fast.py`. -/
def denylist : List (List Char) :=
  ["subscribe".data, "cookie".data, "privacy policy".data, "terms of use".data]

/-- The `startswith` prefixes of `_strip_boilerplate` in `rag_fast.py`
(the first entry is the literal two-character prefix appearing in the source). -/
def copyrightPrefixes : List (List Char) :=
  ["¬©".data, "Copyright".data, "All rights reserved".data]

/-- The per-line filter of `_strip_boilerplate`: keep a (stripped) line iff it
is non-empty, contains none of the denylist substrings (case-insensitively),
does not start with a copyright prefix, and is not an ultra-short line (< 40
characters) without a digit. -/
def keepLine (ln : List Char) : Bool :=
  !ln.isEmpty &&
  !(denylist.any fun d => containsSub (pyLower ln) d) &&
  !(copyrightPrefixes.any fun p => p.isPrefixOf ln) &&
  !(decide (ln.length < 40) && !(ln.any Char.isDigit))

/-- `_strip_boilerplate` from `rag_fast.py`: strip each line, drop the filtered
lines, and re-join with newlines. -/
def stripBoilerplate (text : List Char) : List Char :=
  List.intercalate ['\n'] (((splitLines text).map pyStrip).filter keepLine)

/-- Worker for `wsCollapse`; `inRun` records that the previous character was
whitespace already replaced by the single space of its run. -/
def wsCollapseAux : Bool → List Char → List Char
  | _, [] => []
  | inRun, c :: rest =>
      if isPyWs c then
        if inRun then wsCollapseAux true rest
        else ' ' :: wsCollapseAux true rest
      else c :: wsCollapseAux false rest

/-- `re.sub(r"\s+", " ", text)`: replace every maximal whitespace run with a
single space. -/
def wsCollapse (s : List Char) : List Char :=
  wsCollapseAux false s

/-- Sentence-terminator class `[.!?]` of the `_SENT_SPLIT` regex. -/
def isSentEnd (c : Char) : Bool :=
  c = '.' || c = '!' || c = '?'

/-- Lookahead class `[A-Z0-9]` of the `_SENT_SPLIT` regex. -/
def isUpperOrDigit (c : Char) : Bool :=
  ('A' ≤ c && c ≤ 'Z') || ('0' ≤ c && c ≤ '9')

/-- Worker for `sentSplit`.  `prev` is the character just before the cursor and
`acc` the current sentence, reversed.  A split happens at a maximal whitespace
run whose preceding character is a sentence terminator and whose following
character is `[A-Z0-9]` — exactly the matches of
`re.split(r"(?<=[.!?])\s+(?=[A-Z0-9])", text)` (when the lookahead fails, no
position inside the run can match either, because its lookbehind sees
whitespace). -/
def sentSplitAux : Option Char → List Char → List Char → List Char → List (List Char)
  | _, run, acc, [] => [(run ++ acc).reverse]
  | prev, run, acc, c :: rest =>
      if run.isEmpty then
        if isPyWs c && (match prev with | some p => isSentEnd p | none => false) then
          sentSplitAux prev [c] acc rest
        else
          sentSplitAux (some c) [] (c :: acc) rest
      else
        if isPyWs c then
          sentSplitAux prev (c :: run) acc rest
        else if isUpperOrDigit c then
          acc.reverse :: sentSplitAux (some c) [] [c] rest
        else
          sentSplitAux (some c) [] (c :: (run ++ acc)) rest

/-- `_SENT_SPLIT.split(text)` from `rag_fast.py`.  The second argument of the
worker buffers (reversed) the whitespace run that may become a separator; the
run becomes a separator exactly when the character after it is `[A-Z0-9]`,
and otherwise rejoins the current sentence. -/
def sentSplit (text : List Char) : List (List Char) :=
  sentSplitAux none [] [] text

/-- Search for the regex `(\d{2,4}|\d+[%$])`: a match exists iff some digit is
immediately followed by a digit, a percent sign or a dollar sign. -/
def hasFactPattern : List Char → Bool
  | c1 :: c2 :: rest =>
      (c1.isDigit && (c2.isDigit || c2 = '%' || c2 = '$')) ||
      hasFactPattern (c2 :: rest)
  | _ => false

/-- Boundary test before a `\b`: start of string or a non-word character. -/
def boundaryBefore : Option Char → Bool
  | none => true
  | some p => !isWordChar p

/-- Boundary test after a `\b`: end of string or a non-word character. -/
def boundaryAfter : List Char → Bool
  | [] => true
  | r :: _ => !isWordChar r

/-- Worker for `hasYearPattern`, carrying the previous character. -/
def hasYearPatternAux : Option Char → List Char → Bool
  | prev, c1 :: c2 :: c3 :: c4 :: rest =>
      (boundaryBefore prev &&
        ((c1 = '2' && c2 = '0') || (c1 = '1' && c2 = '9')) &&
        c3.isDigit && c4.isDigit && boundaryAfter rest) ||
      hasYearPatternAux (some c1) (c2 :: c3 :: c4 :: rest)
  | _, c :: rest => hasYearPatternAux (some c) rest
  | _, [] => false

/-- Search for the regex `\b(20\d{2}|19\d{2})\b` from `_salient_sentences`. -/
def hasYearPattern (s : List Char) : Bool :=
  hasYearPatternAux none s

/-- `_salient_sentences` from `rag_fast.py`: collapse whitespace, split into
sentences, keep the "substantive" ones (fact pattern or year pattern, or longer
than 120 characters, never shorter than 40), and fall back to the first five
raw sentences when nothing qualifies. -/
def salientSentences (text : List Char) : List (List Char) :=
  let t := pyStrip (wsCollapse text)
  if t.isEmpty then []
  else
    let sents := sentSplit t
    let salient := sents.filterMap fun s0 =>
      let s := pyStrip s0
      if s.length < 40 then none
      else if hasFactPattern s || hasYearPattern s then some s
      else if s.length > 120 then some s
      else none
    if salient.isEmpty then sents.take 5 else salient

/-- The deduplication key of `dedupe_keep_order`:
`re.sub(r"\W+", "", x.lower())`. -/
def dedupeKey (x : List Char) : List Char :=
  (pyLower x).filter isWordChar

/-- Worker for `dedupeKeepOrder`; `seen` is the set of keys already emitted. -/
def dedupeKeepOrderAux : List (List Char) → List (List Char) → List (List Char)
  | _, [] => []
  | seen, x :: rest =>
      let k := dedupeKey x
      if seen.contains k then dedupeKeepOrderAux seen rest
      else x :: dedupeKeepOrderAux (k :: seen) rest

/-- `dedupe_keep_order` from `rag_fast.py`: drop every item whose normalised
key was already seen, preserving first-seen order. -/
def dedupeKeepOrder (items : List (List Char)) : List (List Char) :=
  dedupeKeepOrderAux [] items

/-- `" ".join(...)` over a list of sentences. -/
def joinSp (ls : List (List Char)) : List Char :=
  List.intercalate [' '] ls

/-- The rule-based compression pipeline applied per document by
`TextPacker.pack` (`rag_fast.py`) and `clean_and_limit_passages`
(`html_text_cleaner_fast.py`): boilerplate strip, salient-sentence filter,
order-preserving deduplication, joined by single spaces. -/
def compress (text : List Char) : List Char :=
  joinSp (dedupeKeepOrder (salientSentences (stripBoilerplate text)))

/-- `count_tokens` from `rag_fast.py` in its deterministic form
(`max(1, len(text) // 4)`, the documented ~4-characters-per-token estimate;
the optional `tiktoken` code path is an external library call). -/
def countTokens (t : List Char) : Nat :=
  max 1 (t.length / 4)

/-- `PackSettings` from `rag_fast.py` (the optional `target_model` field only
selects the external tokenizer and is dropped together with it). -/
structure PackSettings where
  maxInputTokens : Int
  reserveForPromptAndAnswer : Int
  maxPerDocTokens : Int
deriving Repr, DecidableEq

/-- The packing budget: `max(1, max_input_tokens - reserve_for_prompt_and_answer)`. -/
def budgetOf (s : PackSettings) : Int :=
  max 1 (s.maxInputTokens - s.reserveForPromptAndAnswer)

/-- The per-document soft-cap loop of `TextPacker.pack`: append sentences while
the running join stays within `max_per_doc_tokens`, stopping at the first
overflow. -/
def capSentences (maxPerDoc : Int) : List (List Char) → List (List Char) → List (List Char)
  | running, [] => running
  | running, s :: rest =>
      if (countTokens (joinSp (running ++ [s])) : Int) > maxPerDoc then running
      else capSentences maxPerDoc (running ++ [s]) rest

/-- The per-document precompute of `TextPacker.pack`: clean each passage,
soft-cap it, and keep only documents with a non-empty compressed body. -/
def packDocs (s : PackSettings) (pairs : List (List Char × List Char)) :
    List (List Char × List Char) :=
  pairs.filterMap fun ur =>
    let cleaned := stripBoilerplate ur.2
    let sents := dedupeKeepOrder (salientSentences cleaned)
    let running := capSentences s.maxPerDocTokens [] sents
    if running.isEmpty then none else some (ur.1, joinSp running)

/-- The `"[SOURCE] {url}\n"` chunk header of `TextPacker.pack`. -/
def headerOf (url : List Char) : List Char :=
  "[SOURCE] ".data ++ url ++ ['\n']

/-- The greedy packing loop of `TextPacker.pack`: append whole chunks while the
running token total stays within budget, retry an overflowing chunk at half
length (never below 200 characters), and stop at the first chunk that still
does not fit. -/
def packLoop (budget : Int) : List (List Char × List Char) → Int →
    List (List Char) × List (List Char)
  | [], _ => ([], [])
  | (url, body) :: rest, total =>
      let candidate := headerOf url ++ body ++ "\n\n".data
      let c := (countTokens candidate : Int)
      if total + c > budget then
        let half := body.take (max 200 (body.length / 2))
        let candidate2 := headerOf url ++ half ++ "\n\n".data
        let c2 := (countTokens candidate2 : Int)
        if total + c2 > budget then ([], [])
        else
          let r := packLoop budget rest (total + c2)
          (candidate2 :: r.1, url :: r.2)
      else
        let r := packLoop budget rest (total + c)
        (candidate :: r.1, url :: r.2)

/-- `TextPacker.pack` from `rag_fast.py`: compress every passage, then greedily
pack the `[SOURCE]` chunks under the token budget, returning the concatenated
context string and the URLs actually packed. -/
def pack (s : PackSettings) (passages urls : List (List Char)) :
    List Char × List (List Char) :=
  let docs := packDocs s (urls.zip passages)
  let r := packLoop (budgetOf s) docs 0
  (r.1.flatten, r.2)

/-! Embedding of `context_window_manager.py`.  The Python source computes
`int(total_tokens * 0.25)` etc. on IEEE doubles; for integer window sizes the
products `t * 0.25`, `t * 0.15`, `t * 0.35` round to the mathematically exact
values, so the allocations are the exact floors `t/4`, `3t/20`, `7t/20`, `t/4`,
which is how they are modelled here. -/

/-- `ContextWindowBudget` from `context_window_manager.py`. -/
structure ContextWindowBudget where
  totalTokens : Nat
  outputTokens : Nat
  instructionTokens : Nat
  ragTokens : Nat
  safetyTokens : Nat
  totalChars : Nat
  outputChars : Nat
  instructionChars : Nat
  ragChars : Nat
  safetyChars : Nat
deriving Repr, DecidableEq

/-- `CHARS_PER_TOKEN` from `context_window_manager.py`. -/
def charsPerToken : Nat := 4

/-- `ContextWindowManager._calculate_budget`: fixed percentage allocations
(25% output, 15% instructions, 35% RAG, 25% safety margin) with character
equivalents at 4 characters per token. -/
def calculateBudget (contextWindow : Nat) : ContextWindowBudget :=
  let totalTokens := contextWindow
  let outputTokens := totalTokens / 4
  let instructionTokens := 3 * totalTokens / 20
  let ragTokens := 7 * totalTokens / 20
  let safetyTokens := totalTokens / 4
  { totalTokens := totalTokens
    outputTokens := outputTokens
    instructionTokens := instructionTokens
    ragTokens := ragTokens
    safetyTokens := safetyTokens
    totalChars := totalTokens * charsPerToken
    outputChars := outputTokens * charsPerToken
    instructionChars := instructionTokens * charsPerToken
    ragChars := ragTokens * charsPerToken
    safetyChars := safetyTokens * charsPerToken }

/-- `ContextWindowManager.get_rag_limit`: the character limit for RAG content. -/
def getRagLimit (contextWindow : Nat) : Nat :=
  (calculateBudget contextWindow).ragChars

/-! Performance-tier threshold functions.  `li_article_judge.py` uses the same
ladder (89/72/56) in `LinkedInArticleScorer.forward` and in
`FastLinkedInArticleScorer._validate_and_fix_result`; `li_judge_simple.py` has
its own `compute_performance_tier` with a different ladder (90/75/60) and
different labels. -/

/-- The tier ladder of `li_article_judge.py` (thresholds 89/72/56). -/
def fastPerformanceTier (percentage : ℚ) : String :=
  if percentage ≥ 89 then "World-class — publish as is"
  else if percentage ≥ 72 then "Strong, but tighten weak areas"
  else if percentage ≥ 56 then "Needs restructuring and sharper insights"
  else "Rework before publishing"

/-- `compute_performance_tier` from `li_judge_simple.py` (thresholds 90/75/60). -/
def computePerformanceTier (percentage : ℚ) : String :=
  if percentage ≥ 90 then "World-class"
  else if percentage ≥ 75 then "Strong"
  else if percentage ≥ 60 then "Needs work"
  else "Rework before publishing"

/-- Numeric rank of the `li_article_judge.py` tiers, best = 3. -/
def tierRankFast (tier : String) : Nat :=
  if tier = "World-class — publish as is" then 3
  else if tier = "Strong, but tighten weak areas" then 2
  else if tier = "Needs restructuring and sharper insights" then 1
  else 0

/-- Numeric rank of the `li_judge_simple.py` tiers, best = 3. -/
def tierRankSimple (tier : String) : Nat :=
  if tier = "World-class" then 3
  else if tier = "Strong" then 2
  else if tier = "Needs work" then 1
  else 0

/-! Embedding of `word_count_manager.py`. -/

/-- Python `str.split()` with no separator: split on whitespace runs, dropping
empty pieces.  `acc` is the current word, reversed. -/
def splitOnWsAux : List Char → List Char → List (List Char)
  | acc, [] => if acc.isEmpty then [] else [acc.reverse]
  | acc, c :: rest =>
      if isPyWs c then
        if acc.isEmpty then splitOnWsAux [] rest
        else acc.reverse :: splitOnWsAux [] rest
      else splitOnWsAux (c :: acc) rest

/-- Python `str.split()` with no separator. -/
def splitOnWs (s : List Char) : List (List Char) :=
  splitOnWsAux [] s

/-- `WordCountManager.count_words`: normalise whitespace, split into words,
drop pieces with no ASCII alphanumeric character (standalone punctuation). -/
def countWords (text : String) : Nat :=
  if (pyStrip text.data).isEmpty then 0
  else
    let t := wsCollapse (pyStrip text.data)
    let words := (splitOnWs t).filter fun w => !(pyStrip w).isEmpty
    (words.filter fun w => w.any Char.isAlphanum).length

/-! Shared data model (`models.py`). -/

/-- `JudgementModel` from `models.py`.  (The Pydantic range/length validators
never fire on the values the repository constructs and are not modelled; the
wall-clock `created_at`/`timestamp` fields are not representable and are
dropped.) -/
structure JudgementModel where
  totalScore : Int
  maxScore : Int
  percentage : ℚ
  performanceTier : String
  wordCount : Int
  meetsRequirements : Bool
  improvementPrompt : String
  focusAreas : String
  overallFeedback : Option String
deriving Repr, DecidableEq

/-- `ArticleVersion` from `models.py` (without the wall-clock timestamp). -/
structure ArticleVersion where
  version : Int
  content : String
  context : String
  recreateCtx : Bool
  judgement : JudgementModel
deriving Repr, DecidableEq

/-! Embedding of the binary judge `li_judge_simple.py`.  The scorer itself is
LLM-backed, so `ComprehensiveLinkedInArticleJudge.forward` is embedded as a
function of the scorer (an oracle producing an arbitrary `ArticleScoreModel`). -/

/-- `ScoreResultModel` from `li_judge_simple.py`. -/
structure SimpleScoreResult where
  criterion : String
  score : Int
  reasoning : String
  suggestions : String
deriving Repr, DecidableEq

/-- `CategorySummary` from `li_judge_simple.py`. -/
structure SimpleCategorySummary where
  category : String
  score : Int
  maxScore : Int
  percentage : ℚ
deriving Repr, DecidableEq

/-- `ArticleScoreModel` from `li_judge_simple.py` (dicts become association
lists in insertion order, which is how Python iterates them). -/
structure SimpleArticleScore where
  totalScore : Int
  maxScore : Int
  percentage : ℚ
  performanceTier : String
  wordCount : Option Int
  categoryScores : List (String × List SimpleScoreResult)
  categorySummaries : List (String × SimpleCategorySummary)
  overallFeedback : String
deriving Repr, DecidableEq

/-- Stable insertion of `x` into a key-sorted list (matches the stability of
Python `sorted`). -/
def insertByKey (key : String → ℚ) (x : String) : List String → List String
  | [] => [x]
  | y :: ys => if key x ≤ key y then x :: y :: ys else y :: insertByKey key x ys

/-- Stable ascending sort by key (Python `sorted(..., key=...)`). -/
def sortByKey (key : String → ℚ) : List String → List String
  | [] => []
  | x :: xs => insertByKey key x (sortByKey key xs)

/-- `ComprehensiveLinkedInArticleJudge.forward` from `li_judge_simple.py`:
score the latest version, collect the failed criteria fixes, apply the length
gate and the quality gate, and build the `JudgementModel`.  Returns `none` for
an empty version list (the code raises `ValueError` there). -/
def simpleJudgeForward (scorer : String → SimpleArticleScore)
    (minLength maxLength : Int) (passingScorePercentage : ℚ)
    (articleVersions : List ArticleVersion) : Option JudgementModel :=
  match articleVersions.getLast? with
  | none => none
  | some latest =>
      let score := scorer latest.content
      let fixes := (score.categoryScores.map fun ci =>
        (ci.2.filter fun it => it.score == 0 && it.suggestions ≠ "").map
          (·.suggestions)).flatten
      let wc : Int := score.wordCount.getD 0
      let lengthOk := minLength ≤ wc && wc ≤ maxLength
      let meets := lengthOk && decide (passingScorePercentage ≤ score.percentage)
      let lengthNote := "Length out of range: " ++ toString wc ++ " words (target "
        ++ toString minLength ++ "-" ++ toString maxLength ++ ")."
      let improvementPrompt :=
        if fixes.isEmpty && meets then
          "All criteria are satisfactory. No changes required."
        else if !fixes.isEmpty then
          let base := "Address the following before approval:\n\n"
            ++ String.intercalate "\n\n" fixes
          if !lengthOk then base ++ "\n\n" ++ lengthNote else base
        else
          let base := "Address the following before approval:\n\n"
          let base := if !lengthOk then base ++ lengthNote ++ "\n\n" else base
          base ++ "Consider reviewing the article for potential improvements in "
            ++ "content depth, clarity, or engagement to ensure it meets all "
            ++ "quality standards."
      let focusAreas :=
        if score.categorySummaries.isEmpty then "None"
        else
          String.intercalate ", "
            ((sortByKey
                (fun c => (((score.categorySummaries.lookup c).map
                  (·.percentage)).getD 0))
                (score.categorySummaries.map (·.1))).take 3)
      some
        { totalScore := score.totalScore
          maxScore := score.maxScore
          percentage := score.percentage
          performanceTier := score.performanceTier
          wordCount := wc
          meetsRequirements := meets
          improvementPrompt := improvementPrompt
          focusAreas := focusAreas
          overallFeedback := some score.overallFeedback }

/-! Embedding of `li_article_judge.py`. -/

/-- `SCORING_CRITERIA` from `li_article_judge.py`: category name with the list
of (question, points) pairs, in source order.  (The 1/3/5 scale descriptions
only parameterise the LLM prompt and are not consumed by any logic modelled
here.) -/
def scoringCriteria : List (String × List (String × Int)) :=
  [("First-Order Thinking",
    [("Does the article break down complex problems into fundamental components rather than relying on analogies or existing solutions?", 15),
     ("Does it challenge conventional wisdom by examining root assumptions and rebuilding from basic principles?", 15),
     ("Does it avoid surface-level thinking and instead dig into the \x27why\x27 behind commonly accepted ideas?", 15)]),
   ("Strategic Deconstruction & Synthesis",
    [("Does it deconstruct a complex system (a market, a company\x27s strategy, a technology) into its fundamental components and incentives?", 20),
     ("Does it synthesize disparate information (e.g., history, financial data, product strategy, quotes) into a single, coherent thesis?", 20),
     ("Does it identify second- and third-order effects, explaining the cascading \x27so what?\x27 consequences of a core idea or event?", 15),
     ("Does it introduce a durable framework or mental model (like \x27The Bill Gates Line\x27) that helps explain the system and is transferable to other contexts?", 15),
     ("Does it explain the fundamental \x27why\x27 behind events, rather than just describing the \x27what\x27?", 5)]),
   ("Hook & Engagement",
    [("Does the opening immediately grab attention with curiosity, emotion, or urgency?", 5),
     ("Does the intro clearly state why this matters to the reader in the first 3 sentences?", 5)]),
   ("Storytelling & Structure",
    [("Is the article structured like a narrative (problem → tension → resolution → takeaway)?", 5),
     ("Are there specific, relatable examples or anecdotes?", 5)]),
   ("Authority & Credibility",
    [("Are claims backed by data, research, or credible sources?", 5),
     ("Does the article demonstrate unique experience or perspective?", 5)]),
   ("Idea Density & Clarity",
    [("Is there one clear, central idea driving the piece?", 5),
     ("Is every sentence valuable (no filler or fluff)?", 5)]),
   ("Reader Value & Actionability",
    [("Does the reader walk away with practical, actionable insights?", 5),
     ("Are lessons transferable beyond the example given?", 5)]),
   ("Call to Connection",
    [("Does it end with a thought-provoking question or reflection prompt?", 5),
     ("Does it use inclusive, community-building language (\x27we,\x27 \x27us,\x27 shared goals)?", 5)])]

/-- The expected criteria count (`sum(len(criteria) for ...)` = 20). -/
def expectedCriteriaCount : Nat :=
  (scoringCriteria.map fun c => c.2.length).sum

/-- The flattened criteria with their generated ids `Q1`, `Q2`, …:
`(counter, category, question, points)` in source order. -/
def flatCriteria : List (Nat × String × String × Int) :=
  ((scoringCriteria.map fun ci => ci.2.map fun qp => (ci.1, qp.1, qp.2)).flatten).enum.map
    fun ia => (ia.1 + 1, ia.2)

/-- `CriterionScoringOutput` from `li_article_judge.py` (payload only; the
Pydantic field constraints live in `mkCriterionScoringOutput`). -/
structure CriterionScoringOutput where
  score : Int
  reasoning : String
  suggestions : String
deriving Repr, DecidableEq

/-- Constructing a `CriterionScoringOutput` runs the Pydantic field
validators: `score` must lie in `[1, 5]` (`ge=1, le=5`) and the two text
fields must have at least 10 characters (`min_length=10`); a violation raises
`ValidationError`, modelled as `Except.error`. -/
def mkCriterionScoringOutput (score : Int) (reasoning suggestions : String) :
    Except String CriterionScoringOutput :=
  if score < 1 || score > 5 then
    .error "ValidationError: score must be greater than or equal to 1 and less than or equal to 5"
  else if reasoning.length < 10 then
    .error "ValidationError: reasoning too short"
  else if suggestions.length < 10 then
    .error "ValidationError: suggestions too short"
  else
    .ok ⟨score, reasoning, suggestions⟩

/-- `ScoreResultModel` from `models.py`. -/
structure ScoreResultE where
  criterion : String
  score : Int
  reasoning : String
  suggestions : String
deriving Repr, DecidableEq

/-- `ArticleScoreModel` from `models.py` (dict of categories as an association
list in insertion order). -/
structure WeightedArticleScore where
  totalScore : Int
  maxScore : Int
  percentage : ℚ
  categoryScores : List (String × List ScoreResultE)
  overallFeedback : String
  performanceTier : String
  wordCount : Option Int
deriving Repr, DecidableEq

/-- The per-criterion body of `LinkedInArticleScorer.forward`: one criterion is
scored through the LLM oracle `call` (indexed by the running criterion counter;
`Except.error` models a raised exception).  On an exception the code builds a
fallback `CriterionScoringOutput` with `score=0` — which its own `ge=1`
validator rejects, so the fallback construction itself raises (this is the
modelled behaviour, not a simplification).  On success the raw score is clamped
to `[1, 5]` and weighted by `(raw * points) // 5`. -/
def scoreOneCriterion (call : Nat → Except String CriterionScoringOutput)
    (counter : Nat) (question : String) (points : Int) :
    Except String (ScoreResultE × Int) := do
  let out ← match call counter with
    | .ok o => pure o
    | .error _ =>
        mkCriterionScoringOutput 0
          ("Unable to analyze this criterion due to response format issues. Criterion: "
            ++ (question.take 100) ++ "...")
          "Try scoring criterion again."
  let raw : Int := max 1 (min 5 out.score)
  let weighted : Int := raw * points / 5
  pure (⟨"Q" ++ toString counter ++ ": " ++ question, weighted,
         out.reasoning, out.suggestions⟩, weighted)

/-- The inner criterion loop of `LinkedInArticleScorer.forward` over one
category, threading the criterion counter and accumulating the weighted total
and the maximum score. -/
def runCriteria (call : Nat → Except String CriterionScoringOutput) :
    Nat → List (String × Int) → Except String (List ScoreResultE × Int × Int × Nat)
  | counter, [] => .ok ([], 0, 0, counter)
  | counter, (question, points) :: rest => do
      let r ← scoreOneCriterion call counter question points
      let rec' ← runCriteria call (counter + 1) rest
      .ok (r.1 :: rec'.1, r.2 + rec'.2.1, points + rec'.2.2.1, rec'.2.2.2)

/-- The outer category loop of `LinkedInArticleScorer.forward`. -/
def runCategories (call : Nat → Except String CriterionScoringOutput) :
    Nat → List (String × List (String × Int)) →
    Except String (List (String × List ScoreResultE) × Int × Int × Nat)
  | counter, [] => .ok ([], 0, 0, counter)
  | counter, (categoryName, criteria) :: rest => do
      let cat ← runCriteria call counter criteria
      let rec' ← runCategories call cat.2.2.2 rest
      .ok ((categoryName, cat.1) :: rec'.1, cat.2.1 + rec'.2.1,
           cat.2.2.1 + rec'.2.2.1, rec'.2.2.2)

/-- `LinkedInArticleScorer.forward` from `li_article_judge.py` (the weighted
per-criterion strategy): score all 20 criteria through `call`, accumulate the
weighted total and maximum, and derive percentage and tier.  `feedback` is the
LLM-generated overall feedback (an oracle input). -/
def scorerForward (call : Nat → Except String CriterionScoringOutput)
    (feedback : String) : Except String WeightedArticleScore := do
  let r ← runCategories call 1 scoringCriteria
  let totalScore := r.2.1
  let maxScore := r.2.2.1
  let percentage : ℚ := (totalScore : ℚ) / (maxScore : ℚ) * 100
  .ok
    { totalScore := totalScore
      maxScore := maxScore
      percentage := percentage
      categoryScores := r.1
      overallFeedback := feedback
      performanceTier := fastPerformanceTier percentage
      wordCount := none }

/-- `CriterionScore` from `li_article_judge.py` (the single-call strategy). -/
structure CriterionScoreE where
  criterionId : String
  category : String
  question : String
  rawScore : Int
  weightedScore : Int
  maxPoints : Int
  reasoning : String
  suggestions : String
deriving Repr, DecidableEq

/-- `ComprehensiveArticleScoreOutput` from `li_article_judge.py` (the
`category_summaries` dict is not consumed by `_validate_and_fix_result` or by
the legacy conversion and is dropped). -/
structure ComprehensiveScoreOutput where
  criterionScores : List CriterionScoreE
  totalScore : Int
  maxScore : Int
  percentage : ℚ
  performanceTier : String
  overallFeedback : String
deriving Repr, DecidableEq

/-- `FastLinkedInArticleScorer._validate_and_fix_result`: when fewer than the
expected 20 criterion entries came back, synthesize default-scored entries
(raw 3, weighted `(3 * points) // 5`) for ids not present; then recompute
`total_score`, `max_score`, `percentage` and `performance_tier` from the
criterion list, ignoring the model-reported aggregates. -/
def validateAndFixResult (result : ComprehensiveScoreOutput) :
    ComprehensiveScoreOutput :=
  let cs :=
    if result.criterionScores.length < expectedCriteriaCount then
      let existingIds := result.criterionScores.map (·.criterionId)
      result.criterionScores ++ flatCriteria.filterMap fun c =>
        let cid := "Q" ++ toString c.1
        if existingIds.contains cid then none
        else some
          { criterionId := cid
            category := c.2.1
            question := c.2.2.1
            rawScore := 3
            weightedScore := 3 * c.2.2.2 / 5
            maxPoints := c.2.2.2
            reasoning := "Default score applied due to missing evaluation"
            suggestions := "Re-evaluate this criterion for more accurate scoring" }
    else result.criterionScores
  let totalScore : Int := (cs.map (·.weightedScore)).sum
  let maxScore : Int := (cs.map (·.maxPoints)).sum
  let percentage : ℚ := if maxScore > 0 then (totalScore : ℚ) / (maxScore : ℚ) * 100 else 0
  { result with
    criterionScores := cs
    totalScore := totalScore
    maxScore := maxScore
    percentage := percentage
    performanceTier := fastPerformanceTier percentage }

/-- The latest-wins decision of
`ComprehensiveLinkedInArticleJudge.compare_versions` (`li_article_judge.py`):
`A_better`/`B_better` map through the randomised assignment `latestIsA`;
`no_difference` and any unexpected value keep the previous version. -/
def compareLatestBest (latestIsA : Bool) (comparisonResult : String) : Bool :=
  if comparisonResult = "A_better" then latestIsA
  else if comparisonResult = "B_better" then !latestIsA
  else false

/-- Result of `ComprehensiveLinkedInArticleJudge.forward`: the version carried
by the returned prediction, plus a flag recording whether the rubric scorer was
invoked on the latest draft in this call (`True` exactly on the normal scoring
path). -/
structure LjForwardResult where
  version : ArticleVersion
  scored : Bool
deriving Repr, DecidableEq

/-- `ComprehensiveLinkedInArticleJudge.forward` from `li_article_judge.py`.
Oracles: `latestIsA` is the `random.choice` of `compare_versions`;
`comparisonResult`/`reasoning` are the A/B comparison model output; `scorer`
is `FastLinkedInArticleScorer` (already validated); `criteriaForGeneration` is
the static `CriteriaExtractor.get_criteria_for_generation()` text;
`analyzeFeedback`/`analyzeFocus` are the `_analyze_improvement_needs` outputs
(deterministic string assembly not consumed by any claim).  Returns `none` for
an empty version list (`versions[-1]` raises there). -/
def ljJudgeForward (latestIsA : Bool) (comparisonResult reasoning : String)
    (scorer : String → WeightedArticleScore)
    (criteriaForGeneration analyzeFeedback analyzeFocus : String)
    (minLength maxLength : Int) (passingScorePercentage : ℚ)
    (articleVersions : List ArticleVersion) : Option LjForwardResult :=
  match articleVersions.getLast? with
  | none => none
  | some latest =>
    let wordCount : Int := countWords latest.content
    let lengthAchieved := minLength ≤ wordCount && wordCount ≤ maxLength
    if !lengthAchieved then
      some ⟨{ latest with judgement :=
        { totalScore := 0
          maxScore := 100
          percentage := 0
          performanceTier := "Pending"
          wordCount := wordCount
          meetsRequirements := false
          improvementPrompt := criteriaForGeneration
          focusAreas := "Pending Judging while word length is acceptable."
          overallFeedback := some "Pending Judging while word length is acceptable." } },
        false⟩
    else
      let proceed : ArticleVersion → Option LjForwardResult := fun latestX =>
        let score := scorer latest.content
        let qualityAchieved := decide (passingScorePercentage ≤ score.percentage)
        let improvementPrompt :=
          if qualityAchieved then "Article meets all requirements. No improvements needed."
          else analyzeFeedback
        let focusAreas :=
          if qualityAchieved then "None - targets achieved" else analyzeFocus
        let overallFb :=
          match latestX.judgement.overallFeedback with
          | some prevFb =>
              if prevFb ≠ "" then some (prevFb ++ "\n\n" ++ score.overallFeedback)
              else some score.overallFeedback
          | none => some score.overallFeedback
        some ⟨{ latestX with judgement :=
          { totalScore := score.totalScore
            maxScore := score.maxScore
            percentage := score.percentage
            performanceTier := score.performanceTier
            wordCount := wordCount
            meetsRequirements := qualityAchieved
            improvementPrompt := improvementPrompt
            focusAreas := focusAreas
            overallFeedback := overallFb } }, true⟩
      match articleVersions.dropLast.getLast? with
      | none => proceed latest
      | some previous =>
        if compareLatestBest latestIsA comparisonResult then
          proceed { latest with judgement := { latest.judgement with
            overallFeedback :=
              some ("The latest version is better for the following reasons.\n"
                ++ reasoning) } }
        else
          let fb :=
            (if comparisonResult = "no_difference" then
              "No real difference between versions - keeping previous version as requested."
             else "The previous version is better for the following reasons.")
            ++ "\n" ++ reasoning ++ "\n" ++ "We are keeping the previous version."
          some ⟨{ latest with
            content := previous.content
            context := previous.context
            judgement := { previous.judgement with
              overallFeedback := some fb
              meetsRequirements := true } }, false⟩

/-! Embedding of the refinement loop
`LinkedInArticleGenerator._iterative_improvement_process`
(`linkedin_article_generator.py`).  The judge, the improvement generator and
the interactive user are all external effects and appear as oracle
parameters; the loop itself is a total function, which is the formal content
of "the loop always terminates". -/

/-- One refinement loop.  `fuel` is the number of remaining iterations
(initially `max(1, max_iterations)`); `iteration` the Python `iteration`
counter.  Each pass judges the current article (appending exactly one
`ArticleVersion`), exits on the gate (`auto`) or on the user decision
(interactive), and otherwise regenerates.  In the interactive continue path,
non-empty user instructions are prepended to the improvement prompt of the
judgement object, which is shared with the just-appended version (Python
mutates the aliased object). -/
def runIterations (judge : List ArticleVersion → JudgementModel)
    (improve : String → JudgementModel → String × String)
    (auto : Bool) (userFinish : ArticleVersion → Bool)
    (userInstructions : Int → String) (recreateCtx : Bool) :
    Nat → Int → String → String → List ArticleVersion → List ArticleVersion
  | 0, _, _, _, versions => versions
  | fuel + 1, iteration, currentArticle, currentContext, versions =>
      let iter := iteration + 1
      let pending : JudgementModel :=
        { totalScore := 0
          maxScore := 100
          percentage := 0
          performanceTier := "Pending"
          wordCount := ((splitOnWs currentArticle.data).length : Int)
          meetsRequirements := false
          improvementPrompt := "Pending analysis - this is a temporary placeholder that will be replaced with actual improvement guidance from the comprehensive judge."
          focusAreas := "Pending analysis - temporary placeholder for focus areas"
          overallFeedback := none }
      let tempVersion : ArticleVersion :=
        ⟨iter, currentArticle, currentContext, recreateCtx, pending⟩
      let judgement := judge (versions ++ [tempVersion])
      let v : ArticleVersion :=
        ⟨iter, currentArticle, currentContext, recreateCtx, judgement⟩
      if auto then
        if judgement.meetsRequirements then versions ++ [v]
        else
          let ic := improve currentArticle judgement
          runIterations judge improve auto userFinish userInstructions recreateCtx
            fuel iter ic.1 ic.2 (versions ++ [v])
      else
        if userFinish v then versions ++ [v]
        else
          let instr := userInstructions iter
          let judgement' :=
            if instr ≠ "" then
              { judgement with improvementPrompt :=
                  "THESE ARE NEW INSTRUCTIONS:\n<NEW>\n" ++ instr ++ "\n<NEW/>\n\n"
                    ++ judgement.improvementPrompt }
            else judgement
          let v' : ArticleVersion :=
            ⟨iter, currentArticle, currentContext, recreateCtx, judgement'⟩
          let ic := improve currentArticle judgement'
          runIterations judge improve auto userFinish userInstructions recreateCtx
            fuel iter ic.1 ic.2 (versions ++ [v'])

/-- `_iterative_improvement_process`: run the loop for at most
`max(1, max_iterations)` iterations starting from the initial article, and
return the accumulated `versions` history. -/
def iterativeImprovementProcess (judge : List ArticleVersion → JudgementModel)
    (improve : String → JudgementModel → String × String)
    (auto : Bool) (userFinish : ArticleVersion → Bool)
    (userInstructions : Int → String) (recreateCtx : Bool)
    (maxIterations : Int) (initialArticle initialContext : String) :
    List ArticleVersion :=
  runIterations judge improve auto userFinish userInstructions recreateCtx
    (max 1 maxIterations).toNat 0 initialArticle initialContext []

/-! Concrete oracle behaviours and inputs used by witnesses and
counterexamples. -/

/-- An oracle whose every criterion call succeeds with a plain middle score. -/
def okCall3 : Nat → Except String CriterionScoringOutput :=
  fun _ => .ok ⟨3, "a plausible rationale for the middle score", "add more concrete evidence"⟩

/-- An oracle whose call for criterion `Q1` raises and all others succeed. -/
def failCall1 : Nat → Except String CriterionScoringOutput :=
  fun k => if k = 1 then .error "LM call timed out"
    else .ok ⟨3, "a plausible rationale for the middle score", "add more concrete evidence"⟩

/-- A model response for the single-call scorer consisting of 20 copies of the
same `Q1` entry: it passes the at-least-20-entries validator although the
criteria `Q2`…`Q20` are missing. -/
def c4DupInput : ComprehensiveScoreOutput :=
  { criterionScores := List.replicate 20
      { criterionId := "Q1"
        category := "First-Order Thinking"
        question := "Does the article break down complex problems into fundamental components rather than relying on analogies or existing solutions?"
        rawScore := 1
        weightedScore := 1
        maxPoints := 5
        reasoning := "model-provided reasoning"
        suggestions := "model-provided suggestion" }
    totalScore := 999
    maxScore := 180
    percentage := 100
    performanceTier := "World-class — publish as is"
    overallFeedback := "model-provided overall feedback" }

/-- A previous article version whose judgement failed the quality gate
(percentage 50). -/
def prevVersion50 : ArticleVersion :=
  { version := 1
    content := "alpha beta gamma delta"
    context := "previous retrieval context"
    recreateCtx := false
    judgement :=
      { totalScore := 50
        maxScore := 100
        percentage := 50
        performanceTier := "Rework before publishing"
        wordCount := 4
        meetsRequirements := false
        improvementPrompt := "strengthen the argument structure and add concrete supporting evidence"
        focusAreas := "First-Order Thinking"
        overallFeedback := none } }

/-- A freshly generated latest version awaiting judgement. -/
def latestVersionPending : ArticleVersion :=
  { version := 2
    content := "one two three"
    context := "latest retrieval context"
    recreateCtx := false
    judgement :=
      { totalScore := 0
        maxScore := 100
        percentage := 0
        performanceTier := "Pending"
        wordCount := 3
        meetsRequirements := false
        improvementPrompt := "Pending analysis - temporary placeholder before the comprehensive judge runs."
        focusAreas := "Pending analysis"
        overallFeedback := none } }

/-- A constant weighted score used where a scorer oracle is required but the
control path under study never invokes it. -/
def dummyWeightedScore : WeightedArticleScore :=
  { totalScore := 90
    maxScore := 180
    percentage := 50
    categoryScores := []
    overallFeedback := "dummy overall feedback"
    performanceTier := "Rework before publishing"
    wordCount := none }

/-- A concrete binary-judge score with word count 500 and percentage 90. -/
def simpleScore500 : SimpleArticleScore :=
  { totalScore := 90
    maxScore := 100
    percentage := 90
    performanceTier := "World-class"
    wordCount := some 500
    categoryScores := []
    categorySummaries := []
    overallFeedback := "clean and well argued" }

/-! Theorems. -/

/-- C7: for every positive context window, the four token allocations
(25% output, 15% instructions, 35% evidence/RAG, 25% safety) sum to the total
within integer rounding (they can fall short of the total only by the at most
3 units lost to flooring), every character equivalent is its token allocation
times the fixed 4 chars-per-token ratio, and for `context_window = 32000` the
evidence allocation is 11,200 tokens = 44,800 chars and the output allocation
is 8,000 tokens. -/
theorem c7_budget_allocations (t : Nat) (h : 0 < t) :
    ((calculateBudget t).totalTokens - 3 ≤
        (calculateBudget t).outputTokens + (calculateBudget t).instructionTokens +
        (calculateBudget t).ragTokens + (calculateBudget t).safetyTokens ∧
      (calculateBudget t).outputTokens + (calculateBudget t).instructionTokens +
        (calculateBudget t).ragTokens + (calculateBudget t).safetyTokens ≤
        (calculateBudget t).totalTokens) ∧
    ((calculateBudget t).totalChars = (calculateBudget t).totalTokens * charsPerToken ∧
      (calculateBudget t).outputChars = (calculateBudget t).outputTokens * charsPerToken ∧
      (calculateBudget t).instructionChars = (calculateBudget t).instructionTokens * charsPerToken ∧
      (calculateBudget t).ragChars = (calculateBudget t).ragTokens * charsPerToken ∧
      (calculateBudget t).safetyChars = (calculateBudget t).safetyTokens * charsPerToken) ∧
    ((calculateBudget 32000).ragTokens = 11200 ∧
      (calculateBudget 32000).ragChars = 44800 ∧ getRagLimit 32000 = 44800 ∧
      (calculateBudget 32000).outputTokens = 8000) := by
  refine ⟨⟨?_, ?_⟩, ⟨rfl, rfl, rfl, rfl, rfl⟩, by decide, by decide, by decide, by decide⟩
  · simp only [calculateBudget]
    have h4 := Nat.div_add_mod t 4
    have h3 := Nat.div_add_mod (3 * t) 20
    have h7 := Nat.div_add_mod (7 * t) 20
    omega
  · simp only [calculateBudget]
    have h4 := Nat.div_add_mod t 4
    have h3 := Nat.div_add_mod (3 * t) 20
    have h7 := Nat.div_add_mod (7 * t) 20
    omega

/-- Witness for C7 at the concrete window size 32000. -/
theorem c7_budget_allocations_witness :
    (calculateBudget 32000).outputTokens + (calculateBudget 32000).instructionTokens +
      (calculateBudget 32000).ragTokens + (calculateBudget 32000).safetyTokens ≤
      (calculateBudget 32000).totalTokens :=
  (c7_budget_allocations 32000 (by decide)).1.2

/-- C8 (counterexample): the tier function is not the same across the two
scoring strategies and the binary judge does not use the 89/72/56 thresholds:
at percentage 89, `li_article_judge.py` answers its top tier while
`li_judge_simple.py`'s `compute_performance_tier` answers its second tier, and
at the claimed boundary 56 the binary judge still answers its bottom tier. -/
theorem c8_tier_functions_differ :
    fastPerformanceTier 89 = "World-class — publish as is" ∧
    computePerformanceTier 89 = "Strong" ∧
    fastPerformanceTier 89 ≠ computePerformanceTier 89 ∧
    computePerformanceTier 56 = "Rework before publishing" := by
  refine ⟨?_, ?_, ?_, ?_⟩ <;> decide

/-- C8 (amended): each of the two tier ladders — 89/72/56 in
`li_article_judge.py` and 90/75/60 in `li_judge_simple.py` — is a
deterministic four-tier step function that is monotone in the percentage,
including at its exact boundary values. -/
theorem c8_tier_monotone (p1 p2 : ℚ) (h : p1 ≤ p2) :
    tierRankFast (fastPerformanceTier p1) ≤ tierRankFast (fastPerformanceTier p2) ∧
    tierRankSimple (computePerformanceTier p1) ≤ tierRankSimple (computePerformanceTier p2) := by
  constructor
  · unfold fastPerformanceTier
    split_ifs <;> first | decide | linarith
  · unfold computePerformanceTier
    split_ifs <;> first | decide | linarith

/-- Witness for C8 (amended) at concrete percentages 56 ≤ 89. -/
theorem c8_tier_monotone_witness :
    tierRankFast (fastPerformanceTier 56) ≤ tierRankFast (fastPerformanceTier 89) :=
  (c8_tier_monotone 56 89 (by norm_num)).1

/-- The refinement loop appends at most one version per unit of fuel. -/
theorem runIterations_length_le (judge : List ArticleVersion → JudgementModel)
    (improve : String → JudgementModel → String × String)
    (auto : Bool) (userFinish : ArticleVersion → Bool)
    (userInstructions : Int → String) (recreateCtx : Bool) :
    ∀ (fuel : Nat) (iteration : Int) (a c : String) (versions : List ArticleVersion),
      (runIterations judge improve auto userFinish userInstructions recreateCtx
        fuel iteration a c versions).length ≤ versions.length + fuel := by
  intro fuel
  induction fuel with
  | zero => intro iteration a c versions; simp [runIterations]
  | succ n ih =>
      intro iteration a c versions
      simp only [runIterations]
      split
      · split
        · simp
        · exact le_trans (ih _ _ _ _) (by simp; omega)
      · split
        · simp
        · exact le_trans (ih _ _ _ _) (by simp; omega)

/-- C2: for every configured `max_iterations = N`, the refinement loop
terminates (it is a total function of its oracles, recursing on the iteration
budget) and the `versions` history it produces has length at most
`max(1, N)`, which is at most N plus one — at most N generated-and-scored
versions plus the initial version, for every behaviour of the judge, the
improver and the interactive user. -/
theorem c2_loop_terminates_bounded (judge : List ArticleVersion → JudgementModel)
    (improve : String → JudgementModel → String × String)
    (auto : Bool) (userFinish : ArticleVersion → Bool)
    (userInstructions : Int → String) (recreateCtx : Bool)
    (maxIterations : Int) (initialArticle initialContext : String) :
    (iterativeImprovementProcess judge improve auto userFinish userInstructions
        recreateCtx maxIterations initialArticle initialContext).length ≤
      (max 1 maxIterations).toNat ∧
    (max 1 maxIterations).toNat ≤ maxIterations.toNat + 1 := by
  constructor
  · have := runIterations_length_le judge improve auto userFinish userInstructions
      recreateCtx (max 1 maxIterations).toNat 0 initialArticle initialContext []
    simpa [iterativeImprovementProcess] using this
  · omega

/-- Total points of a criteria list. -/
def sumPoints (items : List (String × Int)) : Int :=
  (items.map (·.2)).sum

/-- Sum of `points / 5` over a criteria list (the weighted score of an
all-ones rating). -/
def sumPointsDivFive (items : List (String × Int)) : Int :=
  (items.map fun qp => qp.2 / 5).sum

/-- Total points over all categories. -/
def sumPointsCat (cats : List (String × List (String × Int))) : Int :=
  (cats.map fun c => sumPoints c.2).sum

/-- Sum of `points / 5` over all categories. -/
def sumPointsDivFiveCat (cats : List (String × List (String × Int))) : Int :=
  (cats.map fun c => sumPointsDivFive c.2).sum

/-- Number of criteria over all categories. -/
def totalCriteria (cats : List (String × List (String × Int))) : Nat :=
  (cats.map fun c => c.2.length).sum

/-- Unfolding lemma for `sumPoints`. -/
theorem sumPoints_cons (qp : String × Int) (rest : List (String × Int)) :
    sumPoints (qp :: rest) = qp.2 + sumPoints rest := by
  simp [sumPoints]

/-- Unfolding lemma for `sumPointsDivFive`. -/
theorem sumPointsDivFive_cons (qp : String × Int) (rest : List (String × Int)) :
    sumPointsDivFive (qp :: rest) = qp.2 / 5 + sumPointsDivFive rest := by
  simp [sumPointsDivFive]

/-- Unfolding lemma for `sumPointsCat`. -/
theorem sumPointsCat_cons (c : String × List (String × Int))
    (rest : List (String × List (String × Int))) :
    sumPointsCat (c :: rest) = sumPoints c.2 + sumPointsCat rest := by
  simp [sumPointsCat]

/-- Unfolding lemma for `sumPointsDivFiveCat`. -/
theorem sumPointsDivFiveCat_cons (c : String × List (String × Int))
    (rest : List (String × List (String × Int))) :
    sumPointsDivFiveCat (c :: rest) = sumPointsDivFive c.2 + sumPointsDivFiveCat rest := by
  simp [sumPointsDivFiveCat]

/-- Unfolding lemma for `totalCriteria`. -/
theorem totalCriteria_cons (c : String × List (String × Int))
    (rest : List (String × List (String × Int))) :
    totalCriteria (c :: rest) = c.2.length + totalCriteria rest := by
  simp [totalCriteria]

/-- A successful single-criterion score is at least `points / 5` (the clamp
forces a raw score of at least 1) and at most `points`. -/
theorem scoreOneCriterion_ok_bounds (call : Nat → Except String CriterionScoringOutput)
    (counter : Nat) (question : String) (points : Int) (hp : 0 ≤ points)
    (r : ScoreResultE × Int)
    (h : scoreOneCriterion call counter question points = .ok r) :
    points / 5 ≤ r.2 ∧ r.2 ≤ points := by
  cases hc : call counter with
  | ok o =>
      simp only [scoreOneCriterion, hc, bind, Except.bind, pure, Except.pure,
        Except.ok.injEq] at h
      have hraw1 : (1 : Int) ≤ max 1 (min 5 o.score) := le_max_left _ _
      have hraw5 : max 1 (min 5 o.score) ≤ 5 :=
        max_le (by norm_num) (min_le_left _ _)
      set raw : Int := max 1 (min 5 o.score) with hra
      have h2 : r.2 = raw * points / 5 := by rw [← h]
      have : raw = 1 ∨ raw = 2 ∨ raw = 3 ∨ raw = 4 ∨ raw = 5 := by omega
      rcases this with h' | h' | h' | h' | h' <;> rw [h2, h'] <;> constructor <;> omega
  | error e =>
      simp only [scoreOneCriterion, hc, mkCriterionScoringOutput, bind,
        Except.bind] at h
      norm_num at h
      exact Except.noConfusion h

/-- A failing criterion call makes the single-criterion step fail: the
fallback `CriterionScoringOutput(score=0, ...)` violates its own `ge=1`
validator, so the fallback construction raises instead of substituting. -/
theorem scoreOneCriterion_error (call : Nat → Except String CriterionScoringOutput)
    (counter : Nat) (question : String) (points : Int) (e : String)
    (h : call counter = .error e) :
    ∃ e', scoreOneCriterion call counter question points = .error e' := by
  refine ⟨?_, ?_⟩
  · exact "ValidationError: score must be greater than or equal to 1 and less than or equal to 5"
  · simp only [scoreOneCriterion, h, mkCriterionScoringOutput, bind, Except.bind]
    norm_num

/-- Invariants of the criterion loop on success: the accumulated maximum is
the sum of the points, the accumulated total lies between the all-ones and the
all-fives weighted sums, and the counter advances by the number of criteria. -/
theorem runCriteria_ok_bounds (call : Nat → Except String CriterionScoringOutput) :
    ∀ (items : List (String × Int)) (counter : Nat)
      (out : List ScoreResultE × Int × Int × Nat),
      (∀ qp ∈ items, 0 ≤ qp.2) →
      runCriteria call counter items = .ok out →
      out.2.2.1 = sumPoints items ∧ sumPointsDivFive items ≤ out.2.1 ∧
        out.2.1 ≤ sumPoints items ∧ out.2.2.2 = counter + items.length := by
  intro items
  induction items with
  | nil =>
      intro counter out _ h
      simp only [runCriteria, Except.ok.injEq] at h
      simp [← h, sumPoints, sumPointsDivFive]
  | cons qp rest ih =>
      intro counter out hnn h
      obtain ⟨question, points⟩ := qp
      cases h1 : scoreOneCriterion call counter question points with
      | error e =>
          simp only [runCriteria, h1, bind, Except.bind] at h
          exact Except.noConfusion h
      | ok r =>
          cases h2 : runCriteria call (counter + 1) rest with
          | error e =>
              simp only [runCriteria, h1, h2, bind, Except.bind] at h
              exact Except.noConfusion h
          | ok out' =>
              have hb := scoreOneCriterion_ok_bounds call counter question points
                (hnn _ (List.mem_cons_self _ _)) r h1
              have hr := ih (counter + 1) out'
                (fun x hx => hnn x (List.mem_cons_of_mem _ hx)) h2
              simp only [runCriteria, h1, h2, bind, Except.bind,
                Except.ok.injEq] at h
              rw [← h]
              refine ⟨?_, ?_, ?_, ?_⟩
              · simp only [sumPoints, List.map_cons, List.sum_cons]
                rw [hr.1]
                rfl
              · simp only [sumPointsDivFive, List.map_cons, List.sum_cons]
                exact add_le_add hb.1 hr.2.1
              · simp only [sumPoints, List.map_cons, List.sum_cons]
                exact add_le_add hb.2 hr.2.2.1
              · simp only [List.length_cons]
                rw [hr.2.2.2]
                omega

/-- Failure propagation in the criterion loop: if the call for any criterion
in range fails, the whole loop fails. -/
theorem runCriteria_error (call : Nat → Except String CriterionScoringOutput) :
    ∀ (items : List (String × Int)) (counter k : Nat),
      counter ≤ k → k < counter + items.length → (∃ e, call k = .error e) →
      ∃ e', runCriteria call counter items = .error e' := by
  intro items
  induction items with
  | nil =>
      intro counter k h1 h2 _
      simp at h2
      omega
  | cons qp rest ih =>
      intro counter k h1 h2 he
      obtain ⟨question, points⟩ := qp
      cases h3 : scoreOneCriterion call counter question points with
      | error e =>
          exact ⟨e, by simp only [runCriteria, h3, bind, Except.bind]⟩
      | ok r =>
          rcases Nat.eq_or_lt_of_le h1 with h4 | h4
          · obtain ⟨e, he⟩ := he
            rw [← h4] at he
            obtain ⟨e', he'⟩ := scoreOneCriterion_error call counter question points e he
            rw [he'] at h3
            cases h3
          · obtain ⟨e', he'⟩ := ih (counter + 1) k h4 (by simp at h2 ⊢; omega) he
            exact ⟨e', by simp only [runCriteria, h3, he', bind, Except.bind]⟩

/-- Invariants of the category loop on success. -/
theorem runCategories_ok_bounds (call : Nat → Except String CriterionScoringOutput) :
    ∀ (cats : List (String × List (String × Int))) (counter : Nat)
      (out : List (String × List ScoreResultE) × Int × Int × Nat),
      (∀ c ∈ cats, ∀ qp ∈ c.2, 0 ≤ qp.2) →
      runCategories call counter cats = .ok out →
      out.2.2.1 = sumPointsCat cats ∧ sumPointsDivFiveCat cats ≤ out.2.1 ∧
        out.2.1 ≤ sumPointsCat cats ∧ out.2.2.2 = counter + totalCriteria cats := by
  intro cats
  induction cats with
  | nil =>
      intro counter out _ h
      simp only [runCategories, Except.ok.injEq] at h
      simp [← h, sumPointsCat, sumPointsDivFiveCat, totalCriteria]
  | cons chead rest ih =>
      intro counter out hnn h
      obtain ⟨categoryName, criteria⟩ := chead
      cases h1 : runCriteria call counter criteria with
      | error e =>
          simp only [runCategories, h1, bind, Except.bind] at h
          exact Except.noConfusion h
      | ok cat =>
          cases h2 : runCategories call cat.2.2.2 rest with
          | error e =>
              simp only [runCategories, h1, h2, bind, Except.bind] at h
              exact Except.noConfusion h
          | ok out' =>
              have hb := runCriteria_ok_bounds call criteria counter cat
                (fun qp hqp => hnn _ (List.mem_cons_self _ _) qp hqp) h1
              have hr := ih cat.2.2.2 out'
                (fun c hc => hnn c (List.mem_cons_of_mem _ hc)) h2
              simp only [runCategories, h1, h2, bind, Except.bind,
                Except.ok.injEq] at h
              rw [← h]
              refine ⟨?_, ?_, ?_, ?_⟩
              · simp only [sumPointsCat, List.map_cons, List.sum_cons]
                rw [hb.1, hr.1]
                rfl
              · simp only [sumPointsDivFiveCat, List.map_cons, List.sum_cons]
                exact add_le_add hb.2.1 hr.2.1
              · simp only [sumPointsCat, List.map_cons, List.sum_cons]
                exact add_le_add hb.2.2.1 hr.2.2.1
              · rw [totalCriteria_cons, hr.2.2.2, hb.2.2.2]
                dsimp only
                omega

/-- On success the criterion loop advances the counter by the number of
criteria (no positivity assumption needed). -/
theorem runCriteria_ok_counter (call : Nat → Except String CriterionScoringOutput) :
    ∀ (items : List (String × Int)) (counter : Nat)
      (out : List ScoreResultE × Int × Int × Nat),
      runCriteria call counter items = .ok out →
      out.2.2.2 = counter + items.length := by
  intro items
  induction items with
  | nil =>
      intro counter out h
      simp only [runCriteria, Except.ok.injEq] at h
      simp [← h]
  | cons qp rest ih =>
      intro counter out h
      obtain ⟨question, points⟩ := qp
      cases h1 : scoreOneCriterion call counter question points with
      | error e =>
          simp only [runCriteria, h1, bind, Except.bind] at h
          exact Except.noConfusion h
      | ok r =>
          cases h2 : runCriteria call (counter + 1) rest with
          | error e =>
              simp only [runCriteria, h1, h2, bind, Except.bind] at h
              exact Except.noConfusion h
          | ok out' =>
              have hr := ih (counter + 1) out' h2
              simp only [runCriteria, h1, h2, bind, Except.bind,
                Except.ok.injEq] at h
              rw [← h]
              simp only [List.length_cons]
              rw [hr]
              omega

/-- Failure propagation in the category loop. -/
theorem runCategories_error (call : Nat → Except String CriterionScoringOutput) :
    ∀ (cats : List (String × List (String × Int))) (counter k : Nat),
      counter ≤ k → k < counter + totalCriteria cats → (∃ e, call k = .error e) →
      ∃ e', runCategories call counter cats = .error e' := by
  intro cats
  induction cats with
  | nil =>
      intro counter k h1 h2 _
      simp [totalCriteria] at h2
      omega
  | cons chead rest ih =>
      intro counter k h1 h2 he
      obtain ⟨categoryName, criteria⟩ := chead
      by_cases hk : k < counter + criteria.length
      · obtain ⟨e', he'⟩ := runCriteria_error call criteria counter k h1 hk he
        exact ⟨e', by simp only [runCategories, he', bind, Except.bind]⟩
      · cases h3 : runCriteria call counter criteria with
        | error e =>
            exact ⟨e, by simp only [runCategories, h3, bind, Except.bind]⟩
        | ok cat =>
            have hc : cat.2.2.2 = counter + criteria.length :=
              (runCriteria_ok_counter call criteria counter cat h3)
            obtain ⟨e', he'⟩ := ih cat.2.2.2 k (by omega)
              (by rw [totalCriteria_cons] at h2; dsimp only at h2; omega) he
            exact ⟨e', by simp only [runCategories, h3, he', bind, Except.bind]⟩

/-- C10: every score report the weighted per-criterion scorer returns has each
raw score clamped into `[1, 5]` before weighting, so its `max_score` is 180
and its `total_score` is at least 36 = `max_score / 5` (20%); in particular a
0% report is unreachable at this interface, for every oracle behaviour that
lets the scorer return at all. -/
theorem c10_weighted_report_floor (call : Nat → Except String CriterionScoringOutput)
    (feedback : String) (report : WeightedArticleScore)
    (h : scorerForward call feedback = .ok report) :
    report.maxScore = 180 ∧ 36 ≤ report.totalScore ∧ report.totalScore ≤ 180 ∧
      report.maxScore ≤ 5 * report.totalScore := by
  cases hr : runCategories call 1 scoringCriteria with
  | error e =>
      simp only [scorerForward, hr, bind, Except.bind] at h
      exact Except.noConfusion h
  | ok r =>
      have hb := runCategories_ok_bounds call scoringCriteria 1 r (by decide) hr
      have h180 : sumPointsCat scoringCriteria = 180 := by decide
      have h36 : sumPointsDivFiveCat scoringCriteria = 36 := by decide
      simp only [scorerForward, hr, bind, Except.bind, Except.ok.injEq] at h
      rw [← h]
      dsimp only
      rw [h180] at hb
      rw [h36] at hb
      exact ⟨hb.1, by omega, by omega, by omega⟩

/-- Witness for C10: the all-successful middle-score oracle yields a report
with `max_score = 180` and `total_score` at least 36. -/
theorem c10_weighted_report_floor_witness :
    ∃ report, scorerForward okCall3 "overall feedback" = .ok report ∧
      report.maxScore = 180 ∧ 36 ≤ report.totalScore := by
  cases h : scorerForward okCall3 "overall feedback" with
  | error e =>
      have hok : (scorerForward okCall3 "overall feedback").isOk = true := by decide
      rw [h] at hok
      exact Bool.noConfusion hok
  | ok r =>
      have := c10_weighted_report_floor okCall3 "overall feedback" r h
      exact ⟨r, rfl, this.1, this.2.1⟩

/-- C5 (code bug): in the per-criterion strategy a single failing criterion
call aborts the whole scoring pass.  The `except` handler builds the fallback
`CriterionScoringOutput(score=0, ...)`, but that model's own `ge=1` validator
rejects `score=0`, so the handler itself raises and
`LinkedInArticleScorer.forward` propagates the error instead of substituting
the fallback and continuing. -/
theorem c5_single_failure_aborts (call : Nat → Except String CriterionScoringOutput)
    (feedback : String) (k : Nat) (h1 : 1 ≤ k) (h2 : k ≤ 20)
    (he : ∃ e, call k = .error e) :
    ∃ e', scorerForward call feedback = .error e' := by
  have htot : totalCriteria scoringCriteria = 20 := by decide
  obtain ⟨e', he'⟩ := runCategories_error call scoringCriteria 1 k h1
    (by rw [htot]; omega) he
  exact ⟨e', by simp only [scorerForward, he', bind, Except.bind]⟩

/-- Witness for C5: with the oracle that fails exactly on criterion `Q1`, the
whole scoring pass returns an error. -/
theorem c5_single_failure_aborts_witness :
    ∃ e', scorerForward failCall1 "overall feedback" = .error e' :=
  c5_single_failure_aborts failCall1 "overall feedback" 1 (by decide) (by decide)
    ⟨"LM call timed out", rfl⟩

/-- C4 (counterexample): a structured response holding 20 copies of the `Q1`
entry passes the length check (20 entries), so no missing criterion is
synthesized: `Q2` is absent from the validated report, although the totals are
still recomputed from the (duplicated) line items — 20, not the model-reported
999. -/
theorem c4_counterexample :
    ((validateAndFixResult c4DupInput).criterionScores.any
        fun c => decide (c.criterionId = "Q2")) = false ∧
    (validateAndFixResult c4DupInput).criterionScores.length = 20 ∧
    (validateAndFixResult c4DupInput).totalScore = 20 ∧
    c4DupInput.totalScore = 999 := by
  refine ⟨by decide, by decide, by decide, by decide⟩

/-- C4 (amended): the validated report's `total_score`, `max_score`,
`percentage` and `performance_tier` are always recomputed from its criterion
list, never taken from the model-reported aggregates; and when the response
has fewer than the expected 20 entries, every missing criterion id is
synthesized with raw score 3 and weighted score `(3 * points) // 5`.  (With 20
or more entries — e.g. padded by duplicated ids — missing criteria are not
synthesized.) -/
theorem c4_totals_recomputed (result : ComprehensiveScoreOutput) :
    (validateAndFixResult result).totalScore =
        (((validateAndFixResult result).criterionScores.map (·.weightedScore)).sum) ∧
    (validateAndFixResult result).maxScore =
        (((validateAndFixResult result).criterionScores.map (·.maxPoints)).sum) ∧
    (validateAndFixResult result).percentage =
        (if (validateAndFixResult result).maxScore > 0 then
          ((validateAndFixResult result).totalScore : ℚ) /
            ((validateAndFixResult result).maxScore : ℚ) * 100
        else 0) ∧
    (validateAndFixResult result).performanceTier =
        fastPerformanceTier (validateAndFixResult result).percentage ∧
    (result.criterionScores.length < expectedCriteriaCount →
      ∀ c ∈ flatCriteria,
        (result.criterionScores.map (·.criterionId)).contains ("Q" ++ toString c.1) = false →
        ∃ e ∈ (validateAndFixResult result).criterionScores,
          e.criterionId = "Q" ++ toString c.1 ∧ e.rawScore = 3 ∧
          e.weightedScore = 3 * c.2.2.2 / 5 ∧ e.maxPoints = c.2.2.2) := by
  refine ⟨rfl, rfl, rfl, rfl, ?_⟩
  intro hlen c hc hmiss
  simp only [validateAndFixResult, if_pos hlen]
  refine ⟨{ criterionId := "Q" ++ toString c.1
            category := c.2.1
            question := c.2.2.1
            rawScore := 3
            weightedScore := 3 * c.2.2.2 / 5
            maxPoints := c.2.2.2
            reasoning := "Default score applied due to missing evaluation"
            suggestions := "Re-evaluate this criterion for more accurate scoring" },
    ?_, rfl, rfl, rfl, rfl⟩
  refine List.mem_append_right _ ?_
  refine List.mem_filterMap.mpr ⟨c, hc, ?_⟩
  rw [hmiss]
  simp

/-- C3 (amended): in the judge wired into the generator
(`li_judge_simple.ComprehensiveLinkedInArticleJudge`), the returned
judgement's `meets_requirements` flag — the exact flag on which the auto-mode
loop exits early — is true iff both independent gates pass: word count within
`[min_length, max_length]` and percentage at or above the target. -/
theorem c3_wired_judge_gates (scorer : String → SimpleArticleScore)
    (minLength maxLength : Int) (target : ℚ)
    (versions : List ArticleVersion) (latest : ArticleVersion)
    (h : versions.getLast? = some latest) :
    ∃ j, simpleJudgeForward scorer minLength maxLength target versions = some j ∧
      (j.meetsRequirements = true ↔
        (minLength ≤ (scorer latest.content).wordCount.getD 0 ∧
         (scorer latest.content).wordCount.getD 0 ≤ maxLength ∧
         target ≤ (scorer latest.content).percentage)) := by
  simp only [simpleJudgeForward, h]
  refine ⟨_, rfl, ?_⟩
  simp only [Bool.and_eq_true, decide_eq_true_eq]
  tauto

/-- Witness for C3 (amended) at a concrete scorer with word count 500 and
percentage 90 against gates `[450, 1200]` and target 75. -/
theorem c3_wired_judge_gates_witness :
    ∃ j, simpleJudgeForward (fun _ => simpleScore500) 450 1200 75 [prevVersion50] = some j ∧
      (j.meetsRequirements = true ↔
        ((450 : Int) ≤ ((fun _ => simpleScore500) prevVersion50.content).wordCount.getD 0 ∧
         ((fun _ => simpleScore500) prevVersion50.content).wordCount.getD 0 ≤ (1200 : Int) ∧
         (75 : ℚ) ≤ ((fun _ => simpleScore500) prevVersion50.content).percentage)) :=
  c3_wired_judge_gates (fun _ => simpleScore500) 450 1200 75 [prevVersion50]
    prevVersion50 rfl

/-- C3 (counterexample): the A/B-compare override in
`li_article_judge.ComprehensiveLinkedInArticleJudge` marks a version as
meeting requirements although its quality gate fails: on a `no_difference`
comparison the kept previous version comes back with
`meets_requirements = True` while its percentage is 50, far below the target
of 89 — so convergence is not restricted to versions passing both gates. -/
theorem c3_compare_override_violates_gates :
    ((ljJudgeForward true "no_difference" "both versions are equivalent"
        (fun _ => dummyWeightedScore) "generation criteria" "analysis feedback"
        "analysis focus" 1 10 89 [prevVersion50, latestVersionPending]).map
      fun res => (res.version.judgement.meetsRequirements,
        res.version.judgement.percentage, res.scored)) = some (true, 50, false) ∧
    ¬((89 : ℚ) ≤ 50) := by
  constructor
  · decide
  · decide

/-- C6: in the A/B-compare sub-state of
`li_article_judge.ComprehensiveLinkedInArticleJudge.forward`, when the
comparison keeps the previous version (`no_difference` or previous judged
better), the newest version's content and context are overwritten with the
previous version's, its judgement becomes the previous judgement amended with
feedback noting the comparison outcome (and `meets_requirements := True`), and
the rubric scorer is not invoked; only when the latest version wins does
normal scoring proceed. -/
theorem c6_compare_discards_new_draft (latestIsA : Bool)
    (comparisonResult reasoning : String)
    (scorer : String → WeightedArticleScore)
    (criteriaForGeneration analyzeFeedback analyzeFocus : String)
    (minLength maxLength : Int) (target : ℚ)
    (versions : List ArticleVersion) (previous latest : ArticleVersion)
    (hl : versions.getLast? = some latest)
    (hp : versions.dropLast.getLast? = some previous)
    (h1 : minLength ≤ (countWords latest.content : Int))
    (h2 : (countWords latest.content : Int) ≤ maxLength) :
    (compareLatestBest latestIsA comparisonResult = false →
      ljJudgeForward latestIsA comparisonResult reasoning scorer
          criteriaForGeneration analyzeFeedback analyzeFocus
          minLength maxLength target versions =
        some ⟨{ latest with
          content := previous.content
          context := previous.context
          judgement := { previous.judgement with
            overallFeedback := some
              ((if comparisonResult = "no_difference" then
                  "No real difference between versions - keeping previous version as requested."
                else "The previous version is better for the following reasons.")
                ++ "\n" ++ reasoning ++ "\n" ++ "We are keeping the previous version.")
            meetsRequirements := true } }, false⟩) ∧
    (compareLatestBest latestIsA comparisonResult = true →
      ∃ res, ljJudgeForward latestIsA comparisonResult reasoning scorer
          criteriaForGeneration analyzeFeedback analyzeFocus
          minLength maxLength target versions = some res ∧ res.scored = true) ∧
    compareLatestBest latestIsA "no_difference" = false := by
  have hlen : (decide (minLength ≤ (countWords latest.content : Int)) &&
      decide ((countWords latest.content : Int) ≤ maxLength)) = true := by
    simp [h1, h2]
  refine ⟨?_, ?_, rfl⟩
  · intro hc
    simp only [ljJudgeForward, hl, hp, hlen, hc, Bool.not_true, if_false,
      Bool.false_eq_true]
  · intro hc
    simp only [ljJudgeForward, hl, hp, hlen, hc, Bool.not_true, if_false,
      if_true]
    exact ⟨_, rfl, rfl⟩

/-- Witness for C6: with a concrete two-version history passing the length
gate and an `A_better` outcome under `latestIsA = true`, normal scoring
proceeds (`scored = true`). -/
theorem c6_compare_discards_new_draft_witness :
    ∃ res, ljJudgeForward true "A_better" "the new draft is sharper"
        (fun _ => dummyWeightedScore) "generation criteria" "analysis feedback"
        "analysis focus" 1 10 89 [prevVersion50, latestVersionPending] =
          some res ∧ res.scored = true :=
  (c6_compare_discards_new_draft true "A_better" "the new draft is sharper"
    (fun _ => dummyWeightedScore) "generation criteria" "analysis feedback"
    "analysis focus" 1 10 89 [prevVersion50, latestVersionPending]
    prevVersion50 latestVersionPending rfl rfl (by decide) (by decide)).2.1 rfl

/-- Sum of the token estimates of the individual packed chunks. -/
def sumChunkTokens (chunks : List (List Char)) : Nat :=
  (chunks.map countTokens).sum

/-- The greedy packing loop respects the budget in its own accounting: the
running total plus the per-chunk token estimates of everything it appends
never exceeds the budget, and it returns one URL per chunk. -/
theorem packLoop_budget (budget : Int) :
    ∀ (docs : List (List Char × List Char)) (total : Int), total ≤ budget →
      total + (sumChunkTokens (packLoop budget docs total).1 : Int) ≤ budget ∧
      (packLoop budget docs total).1.length = (packLoop budget docs total).2.length := by
  intro docs
  induction docs with
  | nil =>
      intro total h
      simp [packLoop, sumChunkTokens]
      exact h
  | cons doc rest ih =>
      intro total h
      obtain ⟨url, body⟩ := doc
      simp only [packLoop]
      split
      · split
        · simp [sumChunkTokens]
          exact h
        · rename_i hover hfit
          rw [not_lt] at hfit
          have := ih _ hfit
          constructor
          · simp only [sumChunkTokens, List.map_cons, List.sum_cons] at this ⊢
            push_cast at this ⊢
            omega
          · simp only [List.length_cons]
            omega
      · rename_i hfits
        rw [not_lt] at hfits
        have := ih _ hfits
        constructor
        · simp only [sumChunkTokens, List.map_cons, List.sum_cons] at this ⊢
          push_cast at this ⊢
          omega
        · simp only [List.length_cons]
          omega

/-- Each chunk's length is at most four times its token estimate plus three. -/
theorem length_le_four_countTokens (c : List Char) :
    c.length ≤ 4 * countTokens c + 3 := by
  simp only [countTokens]
  have := Nat.div_add_mod c.length 4
  have h4 : c.length % 4 < 4 := Nat.mod_lt _ (by norm_num)
  omega

/-- The length of the concatenation of the chunks is bounded through the
per-chunk token estimates. -/
theorem flatten_length_le (chunks : List (List Char)) :
    chunks.flatten.length ≤ 4 * sumChunkTokens chunks + 3 * chunks.length := by
  induction chunks with
  | nil => simp [sumChunkTokens]
  | cons c rest ih =>
      simp only [List.flatten_cons, List.length_append, sumChunkTokens,
        List.map_cons, List.sum_cons, List.length_cons] at *
      have := length_le_four_countTokens c
      omega

/-- C1 (amended): `TextPacker.pack` keeps its additive accounting within
budget — the sum of the token estimates of the appended chunks never exceeds
`max(1, max_input_tokens - reserve_for_prompt_and_answer)` — and therefore
the token estimate of the returned context string can overrun the budget only
by the sub-token rounding lost per chunk: it is at most the budget plus the
number of included sources.  (The unamended bound
`count_tokens(text) ≤ budget` itself fails; see the counterexample.) -/
theorem c1_pack_budget (s : PackSettings) (passages urls : List (List Char))
    (h : passages.length = urls.length) :
    (countTokens (pack s passages urls).1 : Int) ≤
      budgetOf s + ((pack s passages urls).2.length : Int) := by
  have hb : (1 : Int) ≤ budgetOf s := le_max_left _ _
  obtain ⟨hsum, hlen⟩ := packLoop_budget (budgetOf s)
    (packDocs s (urls.zip passages)) 0 (by omega)
  set docs := packDocs s (urls.zip passages)
  set r := packLoop (budgetOf s) docs 0 with hr
  have hflat := flatten_length_le r.1
  have hpack1 : (pack s passages urls).1 = r.1.flatten := rfl
  have hpack2 : (pack s passages urls).2 = r.2 := rfl
  rw [hpack1, hpack2, ← hlen]
  simp only [countTokens]
  push_cast
  omega

/-- Witness for C1 (amended): four aligned one-character passages under a
budget of 12 tokens. -/
theorem c1_pack_budget_witness :
    (countTokens (pack ⟨12, 0, 6000⟩
        ["1".data, "1".data, "1".data, "1".data]
        ["".data, "".data, "".data, "".data]).1 : Int) ≤
      budgetOf ⟨12, 0, 6000⟩ +
        (((pack ⟨12, 0, 6000⟩ ["1".data, "1".data, "1".data, "1".data]
          ["".data, "".data, "".data, "".data]).2.length : Nat) : Int) :=
  c1_pack_budget ⟨12, 0, 6000⟩ _ _ (by decide)

/-- C1 (counterexample): the budget bound `count_tokens(pack(...).text) ≤
budget` fails as stated.  Four aligned passages `"1"` with empty URLs under
`max_input_tokens = 12, reserve = 0` give a budget of 12; each `[SOURCE]`
chunk is 13 characters and is estimated at 3 tokens, so all four are packed
(running total 12 ≤ 12), but the concatenated 52-character context string is
estimated at `max(1, 52 // 4) = 13 > 12` tokens — token estimation is not
additive across chunks. -/
theorem c1_pack_budget_counterexample :
    budgetOf ⟨12, 0, 6000⟩ = 12 ∧
    (pack ⟨12, 0, 6000⟩ ["1".data, "1".data, "1".data, "1".data]
        ["".data, "".data, "".data, "".data]).1.length = 52 ∧
    countTokens (pack ⟨12, 0, 6000⟩ ["1".data, "1".data, "1".data, "1".data]
        ["".data, "".data, "".data, "".data]).1 = 13 ∧
    ¬((countTokens (pack ⟨12, 0, 6000⟩ ["1".data, "1".data, "1".data, "1".data]
        ["".data, "".data, "".data, "".data]).1 : Int) ≤ budgetOf ⟨12, 0, 6000⟩) := by
  refine ⟨by decide, by decide, by decide, by decide⟩

/-- `pyStrip` output has no leading whitespace left to drop. -/
theorem pyStrip_dropWhile (s : List Char) :
    List.dropWhile isPyWs (pyStrip s) = pyStrip s := by
  rw [List.dropWhile_eq_self_iff]
  intro hl
  have hpre := List.rdropWhile_prefix isPyWs (s.dropWhile isPyWs)
  have hlen : 0 < (s.dropWhile isPyWs).length :=
    lt_of_lt_of_le hl hpre.length_le
  have hget : (pyStrip s).get ⟨0, hl⟩ = (s.dropWhile isPyWs).get ⟨0, hlen⟩ := by
    simp only [List.get_eq_getElem]
    exact List.IsPrefix.getElem hpre hl
  rw [hget]
  exact List.dropWhile_get_zero_not isPyWs s hlen

/-- Python `strip()` is idempotent. -/
theorem pyStrip_idempotent (s : List Char) : pyStrip (pyStrip s) = pyStrip s := by
  show (List.dropWhile isPyWs (pyStrip s)).rdropWhile isPyWs = pyStrip s
  rw [pyStrip_dropWhile s]
  show ((s.dropWhile isPyWs).rdropWhile isPyWs).rdropWhile isPyWs = pyStrip s
  rw [List.rdropWhile_idempotent]
  rfl

/-- `pyStrip` only removes characters. -/
theorem pyStrip_sublist (s : List Char) : List.Sublist (pyStrip s) s :=
  ((List.rdropWhile_prefix isPyWs _).sublist).trans (List.dropWhile_sublist isPyWs)

/-- Every line produced by the split contains no line-break character. -/
theorem splitLinesAux_notBreak :
    ∀ (s acc : List Char) (afterCR : Bool),
      (∀ c ∈ acc, isLineBreak c = false) →
      ∀ l ∈ splitLinesAux afterCR acc s, ∀ c ∈ l, isLineBreak c = false := by
  intro s
  induction s with
  | nil =>
      intro acc afterCR hacc l hl
      simp only [splitLinesAux] at hl
      split at hl
      · simp at hl
      · simp only [List.mem_singleton] at hl
        subst hl
        intro c hc
        exact hacc c (by simpa using hc)
  | cons ch rest ih =>
      intro acc afterCR hacc l hl
      simp only [splitLinesAux] at hl
      split_ifs at hl with h1 h2 h3
      · exact ih acc false hacc l hl
      · rcases List.mem_cons.mp hl with hl | hl
        · subst hl
          intro c hc
          exact hacc c (by simpa using hc)
        · exact ih [] true (by simp) l hl
      · rcases List.mem_cons.mp hl with hl | hl
        · subst hl
          intro c hc
          exact hacc c (by simpa using hc)
        · exact ih [] false (by simp) l hl
      · refine ih (ch :: acc) false ?_ l hl
        intro c hc
        rcases List.mem_cons.mp hc with hc | hc
        · subst hc
          exact Bool.not_eq_true _ ▸ (by simpa using h3)
        · exact hacc c hc

/-- Scanning a break-free line followed by a newline emits exactly that line
and continues after the newline. -/
theorem splitLinesAux_newline :
    ∀ (l acc t : List Char), (∀ c ∈ l, isLineBreak c = false) →
      splitLinesAux false acc (l ++ '\n' :: t) =
        (acc.reverse ++ l) :: splitLinesAux false [] t := by
  intro l
  induction l with
  | nil =>
      intro acc t _
      simp [splitLinesAux, isLineBreak]
  | cons c l' ih =>
      intro acc t hbf
      have hc : isLineBreak c = false := hbf c (List.mem_cons_self _ _)
      have hcr : ¬(c = '\r') := by
        intro hh
        subst hh
        simp [isLineBreak] at hc
      simp only [List.cons_append, splitLinesAux, Bool.false_and,
        Bool.false_eq_true, if_false, hc, hcr, if_neg, decide_eq_true_eq]
      have := ih (c :: acc) t fun d hd => hbf d (List.mem_cons_of_mem _ hd)
      simpa using this

/-- Scanning a break-free suffix appends it to the current line. -/
theorem splitLinesAux_noBreak :
    ∀ (l acc : List Char), (∀ c ∈ l, isLineBreak c = false) →
      (acc ≠ [] ∨ l ≠ []) →
      splitLinesAux false acc l = [acc.reverse ++ l] := by
  intro l
  induction l with
  | nil =>
      intro acc _ hne
      rcases hne with hne | hne
      · simp [splitLinesAux, List.isEmpty_iff, hne]
      · simp at hne
  | cons c l' ih =>
      intro acc hbf _
      have hc : isLineBreak c = false := hbf c (List.mem_cons_self _ _)
      have hcr : ¬(c = '\r') := by
        intro hh
        subst hh
        simp [isLineBreak] at hc
      simp only [splitLinesAux, Bool.false_and, Bool.false_eq_true, if_false]
      rw [if_neg (by simpa using hcr), if_neg (by simp [hc])]
      rw [ih (c :: acc) (fun d hd => hbf d (List.mem_cons_of_mem _ hd))
        (Or.inl (by simp))]
      simp

/-- Unfolding lemma: intercalating a two-or-more-element list. -/
theorem intercalate_cons_cons (s a b : List Char) (t : List (List Char)) :
    List.intercalate s (a :: b :: t) = a ++ s ++ List.intercalate s (b :: t) := by
  simp [List.intercalate, List.intersperse]

/-- Splitting the newline-join of non-empty, break-free lines recovers exactly
those lines. -/
theorem splitLines_intercalate :
    ∀ (ls : List (List Char)),
      (∀ l ∈ ls, l ≠ [] ∧ ∀ c ∈ l, isLineBreak c = false) →
      splitLines (List.intercalate ['\n'] ls) = ls := by
  intro ls
  induction ls with
  | nil => intro _; rfl
  | cons l ls ih =>
      intro h
      cases ls with
      | nil =>
          have h1 : List.intercalate ['\n'] [l] = l := by
            simp [List.intercalate, List.intersperse]
          rw [h1]
          have := splitLinesAux_noBreak l []
            (h l (List.mem_singleton_self l)).2
            (Or.inr (h l (List.mem_singleton_self l)).1)
          simpa [splitLines] using this
      | cons l2 ls' =>
          rw [intercalate_cons_cons]
          have hx : l ++ ['\n'] ++ List.intercalate ['\n'] (l2 :: ls') =
              l ++ '\n' :: List.intercalate ['\n'] (l2 :: ls') := by
            simp
          rw [hx]
          show splitLinesAux false [] (l ++ '\n' :: List.intercalate ['\n'] (l2 :: ls')) =
            l :: l2 :: ls'
          rw [splitLinesAux_newline l [] _ (h l (List.mem_cons_self _ _)).2]
          have := ih fun m hm => h m (List.mem_cons_of_mem _ hm)
          simpa [splitLines] using this

/-- C9 (amended): the full compression pipeline is not idempotent (see the
counterexample: a second pass can drop the once-compressed text entirely), but
its first stage is: the boilerplate strip is idempotent — a line it keeps is
stripped, non-empty and break-free, so re-splitting, re-stripping and
re-filtering leave it untouched, and a boilerplate line once removed does not
reappear. -/
theorem c9_strip_idempotent (x : List Char) :
    stripBoilerplate (stripBoilerplate x) = stripBoilerplate x := by
  simp only [stripBoilerplate]
  set M := (((splitLines x).map pyStrip).filter keepLine) with hM
  have hmem : ∀ m ∈ M, keepLine m = true ∧ ∃ l0 ∈ splitLines x, m = pyStrip l0 := by
    intro m hm
    rw [hM, List.mem_filter] at hm
    obtain ⟨hm1, hm2⟩ := hm
    obtain ⟨l0, hl0, hml⟩ := List.mem_map.mp hm1
    exact ⟨hm2, l0, hl0, hml.symm⟩
  have hprops : ∀ m ∈ M, m ≠ [] ∧ ∀ c ∈ m, isLineBreak c = false := by
    intro m hm
    obtain ⟨hkeep, l0, hl0, hml⟩ := hmem m hm
    constructor
    · intro hnil
      rw [hnil] at hkeep
      simp [keepLine] at hkeep
    · intro c hc
      have hsub : List.Sublist (pyStrip l0) l0 := pyStrip_sublist l0
      have hbf := splitLinesAux_notBreak x [] false (by simp) l0 hl0
      exact hbf c (hsub.subset (hml ▸ hc))
  have hsplit : splitLines (List.intercalate ['\n'] M) = M :=
    splitLines_intercalate M fun m hm => (hprops m hm)
  rw [hsplit]
  have hmap : M.map pyStrip = M := by
    have h' : ∀ m ∈ M, pyStrip m = id m := by
      intro m hm
      obtain ⟨_, l0, _, hml⟩ := hmem m hm
      rw [hml, pyStrip_idempotent]
      rfl
    rw [List.map_congr_left h', List.map_id]
  rw [hmap]
  have hfilt : M.filter keepLine = M :=
    List.filter_eq_self.mpr fun m hm => (hmem m hm).1
  rw [hfilt]

/-- C9 (counterexample): compression is not idempotent.  The 41-character
input splits into six short sentences; none is salient, so the first-five
fallback keeps five of them, and the compressed result is a 34-character line
without digits — which the boilerplate strip of a second pass deletes
entirely, so `compress (compress x) = "" ≠ compress x`. -/
theorem c9_compress_not_idempotent :
    compress "Aa aa. Bb bb. Cc cc. Dd dd. Ee ee. Ff ff.".data =
      "Aa aa. Bb bb. Cc cc. Dd dd. Ee ee.".data ∧
    compress (compress "Aa aa. Bb bb. Cc cc. Dd dd. Ee ee. Ff ff.".data) = [] ∧
    compress (compress "Aa aa. Bb bb. Cc cc. Dd dd. Ee ee. Ff ff.".data) ≠
      compress "Aa aa. Bb bb. Cc cc. Dd dd. Ee ee. Ff ff.".data := by
  refine ⟨by decide, by decide, by decide⟩

end LiSpec
